import Mathlib

/-!
# QuotaWatch — verification of the balance-monitoring core

A shallow embedding of the QuotaWatch backend (`backend/app/worker.py`,
`backend/app/services/adapters/*.py`, `backend/app/core/security.py`,
`backend/app/api/routers/keys.py`) in Lean 4, together with theorems
settling the specification's claims about it.

Conventions of the embedding:
* Python floats become `ℚ` (every computation in scope — subtraction,
  division by 100, `max`, comparison — is exact on the inputs involved).
* JSON values become the inductive `JsonVal`; a Python `dict` becomes an
  association list `List (String × JsonVal)`.
* Network I/O is an oracle argument: each adapter call receives the
  `HttpOutcome` the single HTTP request of that call would observe.
* Python exceptions become the inductive `PyError`; a function that can
  raise returns `Except PyError α`.
* The SQLAlchemy session is modelled by its contract: `add` stages a
  change, `commit` applies all staged changes to the committed database
  at once (or fails, leaving the committed state untouched), `rollback`
  discards staged changes.
-/

namespace QuotaWatch

/-- A JSON value, as far as the embedded code inspects one.
`numStr q` is a string that Python `float()` parses to `q`; `str` is a
string `float()` rejects; `other` covers values (null, lists, objects)
that `float()` rejects with a `TypeError`/`ValueError`. -/
inductive JsonVal where
  | num (q : ℚ)
  | numStr (q : ℚ)
  | str (s : String)
  | boolv (b : Bool)
  | other
deriving DecidableEq, Repr

/-- Python `float(v)` on a JSON-derived value: numbers and numeric
strings convert, `True`/`False` convert to 1/0, everything else raises. -/
def pyFloat : JsonVal → Option ℚ
  | .num q => some q
  | .numStr q => some q
  | .boolv b => some (if b then 1 else 0)
  | .str _ => none
  | .other => none

/-- A JSON object (Python dict) as seen by the embedded code. -/
abbrev JsonObj := List (String × JsonVal)

/-- Python `d.get(k)`: the first binding of `k`, if any. -/
def jsonGet (d : JsonObj) (k : String) : Option JsonVal :=
  (d.find? (fun p => p.1 = k)).map (·.2)

/-- Python `d.get(k, default)`. -/
def jsonGetD (d : JsonObj) (k : String) (default : JsonVal) : JsonVal :=
  (jsonGet d k).getD default

/-- The Python exceptions the embedded code can raise or observe. -/
inductive PyError where
  /-- `httpx.HTTPStatusError`, raised by `response.raise_for_status()`. -/
  | httpStatusError (status : Nat)
  /-- An `httpx.TransportError` (timeout, connection failure, …) raised
  by the request itself.  Not a subclass of `httpx.HTTPStatusError`. -/
  | transportError
  /-- `json.JSONDecodeError` from `response.json()` on a non-JSON body. -/
  | jsonDecodeError
  /-- `ValueError` / `TypeError`, e.g. from a failed `float()` call or
  the explicit missing-`total_grant` raise. -/
  | valueError (msg : String)
  /-- `cryptography.fernet.InvalidToken` — the spec's `DecryptionError`. -/
  | decryptionError
  /-- A database error raised by `session.commit()`. -/
  | dbError
  /-- A failure of `enqueue_job` against the Redis queue. -/
  | enqueueError
  /-- `fastapi.HTTPException` with the given status code. -/
  | httpException (status : Nat)
deriving DecidableEq, Repr

/-- The outcome of one HTTP request, supplied as an oracle:
either a transport-level failure (no response at all) or a response
with a status code and a body.  `body = none` models a body that is
not valid JSON, so that `response.json()` raises. -/
inductive HttpOutcome where
  | transportError
  | response (status : Nat) (body : Option JsonObj)
deriving DecidableEq, Repr

/-- `httpx.Response.is_success`: status in [200, 300). -/
def is2xx (status : Nat) : Bool := 200 ≤ status && status < 300

/-- `BalanceFetchResult` from `services/adapters/base.py`. -/
structure BalanceFetchResult where
  balance : ℚ
  is_estimate : Bool := false
deriving DecidableEq, Repr

/-- `OpenRouterAdapter.fetch_balance` from
`services/adapters/openrouter.py`.  One GET to the credits endpoint;
`raise_for_status()` on non-2xx; then
`balance = float(data.get("credits", 0))`, returned with
`is_estimate = False`. -/
def OpenRouterAdapter.fetch_balance (http : HttpOutcome) :
    Except PyError BalanceFetchResult :=
  match http with
  | .transportError => .error .transportError
  | .response status body =>
    if is2xx status then
      match body with
      | none => .error .jsonDecodeError
      | some data =>
        match pyFloat (jsonGetD data "credits" (.num 0)) with
        | none => .error (.valueError "could not convert to float")
        | some balance => .ok { balance := balance, is_estimate := false }
    else .error (.httpStatusError status)

/-- The result of `OpenAIUsageAdapter.fetch_balance` together with the
number of HTTP requests the call issued (0 or 1), so that
"raises before any network call" is expressible. -/
structure OpenAIFetchOut where
  result : Except PyError BalanceFetchResult
  requests : Nat
deriving Repr

/-- `OpenAIUsageAdapter.fetch_balance` from
`services/adapters/openai.py`.  Reads `total_grant` from the metadata
(raising `ValueError` when absent, and `float()` raising when it is not
numeric), then issues one GET to the usage endpoint inside
`try: … except httpx.HTTPStatusError: return grant estimate`.
A 404 returns the grant as an estimate; any other non-2xx status makes
`raise_for_status()` raise `httpx.HTTPStatusError`, which the `except`
clause turns into the grant estimate; a 2xx response is parsed and the
balance is `max(0, grant − total_usage/100)`.  Transport errors, JSON
decode errors and `float()` failures are not `httpx.HTTPStatusError`
and therefore propagate. -/
def OpenAIUsageAdapter.fetch_balance (metadata : JsonObj)
    (http : HttpOutcome) : OpenAIFetchOut :=
  match jsonGet metadata "total_grant" with
  | none =>
    { result := .error (.valueError "total_grant required in metadata"),
      requests := 0 }
  | some v =>
    match pyFloat v with
    | none =>
      { result := .error (.valueError "could not convert to float"),
        requests := 0 }
    | some total_grant =>
      match http with
      | .transportError => { result := .error .transportError, requests := 1 }
      | .response status body =>
        if status = 404 then
          { result := .ok { balance := total_grant, is_estimate := true },
            requests := 1 }
        else if is2xx status then
          match body with
          | none => { result := .error .jsonDecodeError, requests := 1 }
          | some data =>
            match pyFloat (jsonGetD data "total_usage" (.num 0)) with
            | none =>
              { result := .error (.valueError "could not convert to float"),
                requests := 1 }
            | some total_usage =>
              let used_amount := total_usage / 100
              let remaining := total_grant - used_amount
              { result := .ok { balance := max 0 remaining, is_estimate := true },
                requests := 1 }
        else
          -- raise_for_status() raises HTTPStatusError, caught by the
          -- except clause, which returns the grant as an estimate
          { result := .ok { balance := total_grant, is_estimate := true },
            requests := 1 }

/-!
## Encryption Service (`core/security.py`)

A symbolic model of the external Fernet library, at the level of its
documented contract (authenticated symmetric encryption): a valid token
records the key that produced it and the plaintext; any bit-level
modification of a token breaks its HMAC, which we model by the
`garbage` constructor; `decrypt` succeeds exactly on a valid token
produced under the same key and raises `InvalidToken` (the spec's
`DecryptionError`) otherwise. -/

/-- A Fernet key, identified symbolically. -/
abbrev FernetKey := Nat

/-- A Fernet token: either a well-formed token (recording its producing
key and plaintext) or a tampered/corrupt byte string, whose HMAC check
can never pass. -/
inductive FernetToken where
  | valid (key : FernetKey) (plaintext : String)
  | garbage (data : String)
deriving DecidableEq, Repr

/-- Tampering with a token: any modification of its bytes invalidates
the HMAC, leaving an unauthenticatable blob. -/
def FernetToken.tamper (t : FernetToken) : FernetToken :=
  match t with
  | .valid key plaintext => .garbage (toString key ++ plaintext)
  | .garbage data => .garbage (data ++ "x")

/-- `Fernet(key).encrypt`. -/
def Fernet.encrypt (key : FernetKey) (s : String) : FernetToken :=
  .valid key s

/-- `Fernet(key).decrypt`: succeeds on a valid token produced under the
same key, raises `InvalidToken` otherwise. -/
def Fernet.decrypt (key : FernetKey) (t : FernetToken) :
    Except PyError String :=
  match t with
  | .valid k s => if k = key then .ok s else .error .decryptionError
  | .garbage _ => .error .decryptionError

/-- `EncryptionService` from `core/security.py`: holds the one
process-wide Fernet key. -/
structure EncryptionService where
  key : FernetKey

/-- `EncryptionService.encrypt`: `self.fernet.encrypt(data.encode()).decode()`. -/
def EncryptionService.encrypt (svc : EncryptionService) (data : String) :
    FernetToken :=
  Fernet.encrypt svc.key data

/-- `EncryptionService.decrypt`: `self.fernet.decrypt(token.encode()).decode()`. -/
def EncryptionService.decrypt (svc : EncryptionService) (token : FernetToken) :
    Except PyError String :=
  Fernet.decrypt svc.key token

/-!
## Data model (`models.py`) and session contract
-/

/-- `ManagedApiKey` from `models.py` (the fields the embedded code
reads or writes). -/
structure ManagedApiKey where
  id : Nat
  name : String
  api_key_encrypted : FernetToken
  metadata : JsonObj
  last_known_balance : Option ℚ
  last_checked : Option Nat
  user_id : Nat
  platform_id : Nat
deriving DecidableEq, Repr

/-- `BalanceLog` from `models.py`. -/
structure BalanceLog where
  key_id : Nat
  balance : ℚ
  timestamp : Nat
deriving DecidableEq, Repr

/-- `NotificationRule` from `models.py`. -/
structure NotificationRule where
  key_id : Nat
  threshold_amount : ℚ
  notification_channel : String
  channel_address : String
deriving DecidableEq, Repr

/-- `PlatformProvider` from `models.py` (the fields the worker reads). -/
structure PlatformProvider where
  id : Nat
  adapter_identifier : String
deriving DecidableEq, Repr

/-- The committed database state. -/
structure DbState where
  keys : List ManagedApiKey
  logs : List BalanceLog
  rules : List NotificationRule
  platforms : List PlatformProvider
deriving DecidableEq, Repr

/-- One staged change of a session: `session.add` of an updated
credential row, or of a new balance-log row. -/
inductive DbChange where
  | putKey (k : ManagedApiKey)
  | addLog (l : BalanceLog)
deriving DecidableEq, Repr

/-- Applying one staged change to the committed state.  `putKey`
updates the row with the same primary key; `addLog` inserts a new
row. -/
def applyChange (db : DbState) : DbChange → DbState
  | .putKey k =>
    { db with keys := db.keys.map (fun r => if r.id = k.id then k else r) }
  | .addLog l => { db with logs := db.logs ++ [l] }

/-- A SQLAlchemy session over the committed state: the committed
database plus the changes staged (via `add`) since the last commit. -/
structure Sess where
  committed : DbState
  pending : List DbChange
deriving DecidableEq, Repr

/-- `Session(engine)`: a fresh session with nothing staged. -/
def Sess.openOn (db : DbState) : Sess := { committed := db, pending := [] }

/-- `session.add(obj)`: stage one change. -/
def Sess.add (s : Sess) (c : DbChange) : Sess :=
  { s with pending := s.pending ++ [c] }

/-- `session.commit()`: apply all staged changes to the committed state
as one transaction.  The oracle `ok` says whether the database accepts
the transaction; on failure the commit raises and the committed state
is untouched (the staged changes remain until `rollback`). -/
def Sess.commit (s : Sess) (ok : Bool) : Sess × Except PyError Unit :=
  if ok then
    ({ committed := s.pending.foldl applyChange s.committed, pending := [] },
     .ok ())
  else (s, .error .dbError)

/-- `session.rollback()`: discard staged, uncommitted changes. -/
def Sess.rollback (s : Sess) : Sess := { s with pending := [] }

/-!
## Adapter factory (`services/adapter_factory.py`)
-/

/-- The two registered adapter variants. -/
inductive AdapterKind where
  | openrouter
  | openai
deriving DecidableEq, Repr

/-- `AdapterFactory._adapters`: the registry mapping identifiers to
adapter classes. -/
def AdapterFactory.adapters : List (String × AdapterKind) :=
  [("openrouter", .openrouter), ("openai", .openai)]

/-- `AdapterFactory.create_adapter`: dictionary lookup in the registry;
an unknown identifier raises `ValueError`. -/
def AdapterFactory.create_adapter (adapter_identifier : String) :
    Except PyError AdapterKind :=
  match AdapterFactory.adapters.find? (fun p => p.1 = adapter_identifier) with
  | none => .error (.valueError "unknown adapter identifier")
  | some p => .ok p.2

/-- `adapter.fetch_balance()` after factory dispatch: the variant's
fetch, given the credential's metadata bag and the HTTP oracle. -/
def adapterFetchBalance (kind : AdapterKind) (metadata : JsonObj)
    (http : HttpOutcome) : Except PyError BalanceFetchResult :=
  match kind with
  | .openrouter => OpenRouterAdapter.fetch_balance http
  | .openai => (OpenAIUsageAdapter.fetch_balance metadata http).result

/-!
## Check job and scheduler (`worker.py`)
-/

/-- The payload of an enqueued `send_notification` job. -/
structure NotifyJob where
  key_id : Nat
  balance : ℚ
  threshold : ℚ
  channel : String
  address : String
deriving DecidableEq, Repr

/-- The observable outcome of one run of `check_single_key`: the final
committed database, the notify jobs enqueued during the run, and
whether the job returned normally or re-raised an exception. -/
structure CheckOutcome where
  db : DbState
  notifyJobs : List NotifyJob
  result : Except PyError Unit
deriving Repr

/-- `check_single_key` from `worker.py`, as a function of the committed
database, the HTTP oracle for the single adapter request, the current
time, and oracles saying whether `session.commit()` and `enqueue_job`
succeed.  The structure mirrors the source: load credential and
platform (each missing is a plain early return); inside `try`: decrypt,
build the adapter, fetch, stage the credential update and one
balance-log row, commit, then query the notification rule and enqueue
one notify job when `balance ≤ threshold`; the `except` clause calls
`session.rollback()` and re-raises. -/
def check_single_key (svc : EncryptionService) (db : DbState) (key_id : Nat)
    (http : HttpOutcome) (now : Nat) (commitOk : Bool) (enqueueOk : Bool) :
    CheckOutcome :=
  let session := Sess.openOn db
  match session.committed.keys.find? (fun r => r.id = key_id) with
  | none => { db := session.committed, notifyJobs := [], result := .ok () }
  | some api_key_record =>
    match session.committed.platforms.find?
        (fun p => p.id = api_key_record.platform_id) with
    | none => { db := session.committed, notifyJobs := [], result := .ok () }
    | some platform =>
      match svc.decrypt api_key_record.api_key_encrypted with
      | .error e =>
        { db := session.rollback.committed, notifyJobs := [], result := .error e }
      | .ok _decrypted_key =>
        match AdapterFactory.create_adapter platform.adapter_identifier with
        | .error e =>
          { db := session.rollback.committed, notifyJobs := [],
            result := .error e }
        | .ok adapter =>
          match adapterFetchBalance adapter api_key_record.metadata http with
          | .error e =>
            { db := session.rollback.committed, notifyJobs := [],
              result := .error e }
          | .ok result =>
            let updated := { api_key_record with
              last_known_balance := some result.balance,
              last_checked := some now }
            let balance_log : BalanceLog :=
              { key_id := key_id, balance := result.balance, timestamp := now }
            let session :=
              (session.add (.putKey updated)).add (.addLog balance_log)
            match session.commit commitOk with
            | (session, .error e) =>
              { db := session.rollback.committed, notifyJobs := [],
                result := .error e }
            | (session, .ok _) =>
              match session.committed.rules.find?
                  (fun r => r.key_id = key_id) with
              | none =>
                { db := session.committed, notifyJobs := [], result := .ok () }
              | some notification_rule =>
                if result.balance ≤ notification_rule.threshold_amount then
                  if enqueueOk then
                    let job : NotifyJob :=
                      { key_id := key_id,
                        balance := result.balance,
                        threshold := notification_rule.threshold_amount,
                        channel := notification_rule.notification_channel,
                        address := notification_rule.channel_address }
                    { db := session.committed, notifyJobs := [job],
                      result := .ok () }
                  else
                    { db := session.rollback.committed, notifyJobs := [],
                      result := .error .enqueueError }
                else
                  { db := session.committed, notifyJobs := [], result := .ok () }

/-- The outcome of the scheduler's fan-out: the credential ids whose
check jobs were enqueued, in order, and whether the function returned
normally or an enqueue raised. -/
structure ScheduleOutcome where
  enqueued : List Nat
  result : Except PyError Unit
deriving Repr

/-- The `for key in all_keys: await redis_pool.enqueue_job(…)` loop of
`schedule_all_key_checks`: `enqOk i` says whether the enqueue of the
i-th credential succeeds; a failed enqueue raises out of the loop, so
nothing after it runs. -/
def enqueueLoop (keys : List ManagedApiKey) (enqOk : Nat → Bool) (i : Nat) :
    ScheduleOutcome :=
  match keys with
  | [] => { enqueued := [], result := .ok () }
  | key :: rest =>
    if enqOk i then
      let out := enqueueLoop rest enqOk (i + 1)
      { enqueued := key.id :: out.enqueued, result := out.result }
    else { enqueued := [], result := .error .enqueueError }

/-- `schedule_all_key_checks` from `worker.py`: enumerate all
credentials and enqueue one check job per credential, sequentially. -/
def schedule_all_key_checks (db : DbState) (enqOk : Nat → Bool) :
    ScheduleOutcome :=
  enqueueLoop db.keys enqOk 0

/-!
## Credential registration (`api/routers/keys.py`)
-/

/-- `ApiKeyCreate` from `api/routers/keys.py`. -/
structure ApiKeyCreate where
  name : String
  api_key : String
  platform_id : Nat
  metadata : Option JsonObj
deriving Repr

/-- `create_key` from `api/routers/keys.py` (success path of the
session collapsed: the handler stages exactly the one new row and
commits it).  Validates the platform (404 when missing), encrypts the
plaintext key, and stores a row whose only secret-bearing field is the
ciphertext.  `newId` is the primary key the database assigns. -/
def create_key (svc : EncryptionService) (db : DbState)
    (key_data : ApiKeyCreate) (current_user_id : Nat) (newId : Nat) :
    DbState × Except PyError ManagedApiKey :=
  match db.platforms.find? (fun p => p.id = key_data.platform_id) with
  | none => (db, .error (.httpException 404))
  | some _platform =>
    let encrypted_key := svc.encrypt key_data.api_key
    let new_key : ManagedApiKey :=
      { id := newId, name := key_data.name,
        api_key_encrypted := encrypted_key,
        metadata := key_data.metadata.getD [],
        last_known_balance := none, last_checked := none,
        user_id := current_user_id, platform_id := key_data.platform_id }
    ({ db with keys := db.keys ++ [new_key] }, .ok new_key)

/-!
## Theorems: the adapter layer (claims C4–C7)
-/

/-- C4, counterexample.  The claim says the estimate adapter never
raises once the grant is present, including on timeouts and connection
errors.  But the adapter's `except` clause catches only
`httpx.HTTPStatusError`: with `total_grant = 100` present, a transport
failure of the usage request propagates as an error instead of falling
back to the grant. -/
theorem openai_transport_error_propagates :
    (OpenAIUsageAdapter.fetch_balance [("total_grant", .num 100)]
        .transportError).result = .error .transportError := rfl

/-- C4, amended: for the estimate adapter with a numeric grant present,
every HTTP *response* with a non-success status (the cases that raise
`httpx.HTTPStatusError`, plus the explicitly handled 404) falls back to
returning the grant as an estimate; but a transport failure of the
request (timeout, connection error) propagates as an error. -/
theorem openai_status_fallback_transport_raises (md : JsonObj)
    (v : JsonVal) (g : ℚ)
    (hmd : jsonGet md "total_grant" = some v) (hv : pyFloat v = some g) :
    (∀ status body, is2xx status = false →
      (OpenAIUsageAdapter.fetch_balance md (.response status body)).result
        = .ok { balance := g, is_estimate := true })
    ∧ (OpenAIUsageAdapter.fetch_balance md .transportError).result
        = .error .transportError := by
  constructor
  · intro status body hst
    by_cases h404 : status = 404 <;>
      simp [OpenAIUsageAdapter.fetch_balance, hmd, hv, h404, hst]
  · simp [OpenAIUsageAdapter.fetch_balance, hmd, hv]

/-- C4, witness for the amended theorem: grant 100, a 500 response
falls back to the grant estimate, a transport error propagates. -/
theorem openai_status_fallback_transport_raises_witness :
    (∀ status body, is2xx status = false →
      (OpenAIUsageAdapter.fetch_balance [("total_grant", .num 100)]
          (.response status body)).result
        = .ok { balance := 100, is_estimate := true })
    ∧ (OpenAIUsageAdapter.fetch_balance [("total_grant", .num 100)]
        .transportError).result = .error .transportError :=
  openai_status_fallback_transport_raises
    [("total_grant", .num 100)] (.num 100) 100 rfl rfl

/-- C5, counterexample.  The claim says every malformed body — in
particular one lacking the numeric balance field — surfaces as a fetch
error, and no fallback value is ever returned.  But the exact adapter
computes `float(data.get("credits", 0))`: a 200 response whose JSON
body has no `credits` field yields the fallback balance 0 with the
estimate flag cleared, not an error. -/
theorem openrouter_missing_credits_returns_zero :
    OpenRouterAdapter.fetch_balance (.response 200 (some []))
      = .ok { balance := 0, is_estimate := false } := rfl

/-- C5, amended: for the exact adapter, any non-2xx response raises
`httpx.HTTPStatusError`, a non-JSON body raises a JSON decode error,
and a non-numeric `credits` value raises a `float()` conversion error —
but a well-formed JSON body that merely lacks the `credits` field
yields balance 0 (the `dict.get` default) with the estimate flag
cleared, not an error; a numeric `credits` value is returned exactly. -/
theorem openrouter_error_and_default_cases :
    (∀ status body, is2xx status = false →
      OpenRouterAdapter.fetch_balance (.response status body)
        = .error (.httpStatusError status))
    ∧ (∀ status, is2xx status = true →
      OpenRouterAdapter.fetch_balance (.response status none)
        = .error .jsonDecodeError)
    ∧ (∀ status body s, is2xx status = true →
      jsonGet body "credits" = some (.str s) →
      ∃ msg, OpenRouterAdapter.fetch_balance (.response status (some body))
        = .error (.valueError msg))
    ∧ (∀ status body, is2xx status = true →
      jsonGet body "credits" = none →
      OpenRouterAdapter.fetch_balance (.response status (some body))
        = .ok { balance := 0, is_estimate := false })
    ∧ (∀ status body q, is2xx status = true →
      jsonGet body "credits" = some (.num q) →
      OpenRouterAdapter.fetch_balance (.response status (some body))
        = .ok { balance := q, is_estimate := false }) := by
  refine ⟨?_, ?_, ?_, ?_, ?_⟩
  · intro status body hst
    simp [OpenRouterAdapter.fetch_balance, hst]
  · intro status hst
    simp [OpenRouterAdapter.fetch_balance, hst]
  · intro status body s hst hcr
    exact ⟨"could not convert to float",
      by simp [OpenRouterAdapter.fetch_balance, hst, jsonGetD, hcr, pyFloat]⟩
  · intro status body hst hcr
    simp [OpenRouterAdapter.fetch_balance, hst, jsonGetD, hcr, pyFloat]
  · intro status body q hst hcr
    simp [OpenRouterAdapter.fetch_balance, hst, jsonGetD, hcr, pyFloat]

/-- C5, witness for the amended theorem: a 500 response raises, a 200
response with the body `{"credits": 42.5}` yields exactly 42.5 with the
estimate flag cleared. -/
theorem openrouter_error_and_default_cases_witness :
    OpenRouterAdapter.fetch_balance (.response 500 (some []))
        = .error (.httpStatusError 500)
    ∧ OpenRouterAdapter.fetch_balance
          (.response 200 (some [("credits", .num (85/2))]))
        = .ok { balance := 85/2, is_estimate := false } :=
  ⟨openrouter_error_and_default_cases.1 500 (some []) rfl,
   openrouter_error_and_default_cases.2.2.2.2 200 [("credits", .num (85/2))]
     (85/2) rfl rfl⟩

/-- C6: the estimate adapter with a numeric grant `g`: a 404 from the
usage endpoint returns the grant itself as an estimate; a 2xx response
whose body carries the numeric `total_usage` field `u` (in minor units)
returns `max 0 (g − u/100)` as an estimate.  In particular, grant 100
with usage 3000 minor units gives balance 70, and grant 100 with a 404
gives balance 100 (see the witness). -/
theorem openai_estimate_computation (md : JsonObj) (v : JsonVal) (g : ℚ)
    (hmd : jsonGet md "total_grant" = some v) (hv : pyFloat v = some g) :
    (∀ body, (OpenAIUsageAdapter.fetch_balance md (.response 404 body)).result
      = .ok { balance := g, is_estimate := true })
    ∧ (∀ status body u, is2xx status = true →
      jsonGet body "total_usage" = some (.num u) →
      (OpenAIUsageAdapter.fetch_balance md (.response status (some body))).result
        = .ok { balance := max 0 (g - u / 100), is_estimate := true }) := by
  constructor
  · intro body
    simp [OpenAIUsageAdapter.fetch_balance, hmd, hv]
  · intro status body u hst hu
    have h404 : status ≠ 404 := by
      intro h
      rw [h] at hst
      exact absurd hst (by decide)
    simp only [OpenAIUsageAdapter.fetch_balance, hmd, hv]
    simp [h404, hst, jsonGetD, hu, pyFloat]

/-- C6, witness: grant 100 with usage 3000 minor units yields balance
70 as an estimate; grant 100 with a 404 yields balance 100 as an
estimate. -/
theorem openai_estimate_computation_witness :
    (OpenAIUsageAdapter.fetch_balance [("total_grant", .num 100)]
        (.response 200 (some [("total_usage", .num 3000)]))).result
      = .ok { balance := 70, is_estimate := true }
    ∧ (OpenAIUsageAdapter.fetch_balance [("total_grant", .num 100)]
        (.response 404 none)).result
      = .ok { balance := 100, is_estimate := true } := by
  have h := openai_estimate_computation [("total_grant", .num 100)]
    (.num 100) 100 rfl rfl
  refine ⟨?_, h.1 none⟩
  have := h.2 200 [("total_usage", .num 3000)] 3000 rfl rfl
  rw [this]
  norm_num

/-- C7: if the metadata bag carries no numeric `total_grant` value —
either the field is absent or `float()` rejects its value — the
estimate adapter raises a `ValueError` (the spec's `ConfigurationError`)
and issues zero HTTP requests. -/
theorem openai_missing_grant_no_request (md : JsonObj) (http : HttpOutcome)
    (h : (jsonGet md "total_grant").bind pyFloat = none) :
    (OpenAIUsageAdapter.fetch_balance md http).requests = 0
    ∧ ∃ msg, (OpenAIUsageAdapter.fetch_balance md http).result
      = .error (.valueError msg) := by
  cases hmd : jsonGet md "total_grant" with
  | none =>
    exact ⟨by simp [OpenAIUsageAdapter.fetch_balance, hmd],
      "total_grant required in metadata",
      by simp [OpenAIUsageAdapter.fetch_balance, hmd]⟩
  | some v =>
    rw [hmd] at h
    simp only [Option.some_bind] at h
    exact ⟨by simp [OpenAIUsageAdapter.fetch_balance, hmd, h],
      "could not convert to float",
      by simp [OpenAIUsageAdapter.fetch_balance, hmd, h]⟩

/-- C7, witness: with an empty metadata bag the adapter raises and
makes no HTTP request, whatever the network would have answered. -/
theorem openai_missing_grant_no_request_witness :
    (OpenAIUsageAdapter.fetch_balance [] .transportError).requests = 0
    ∧ ∃ msg, (OpenAIUsageAdapter.fetch_balance [] .transportError).result
      = .error (.valueError msg) :=
  openai_missing_grant_no_request [] .transportError rfl

/-!
## Theorems: the Encryption Service (claim C8)
-/

/-- C8: for every string `s`, decrypting the encryption of `s` under
the same process-wide key yields `s` back; decrypting under a different
key raises `DecryptionError`; and decrypting any tampered token raises
`DecryptionError` instead of returning a value. -/
theorem encrypt_decrypt_roundtrip (svc svc2 : EncryptionService)
    (s : String) (t : FernetToken) (hk : svc2.key ≠ svc.key) :
    svc.decrypt (svc.encrypt s) = .ok s
    ∧ svc2.decrypt (svc.encrypt s) = .error .decryptionError
    ∧ svc.decrypt t.tamper = .error .decryptionError := by
  refine ⟨?_, ?_, ?_⟩
  · simp [EncryptionService.decrypt, EncryptionService.encrypt,
      Fernet.decrypt, Fernet.encrypt]
  · simp [EncryptionService.decrypt, EncryptionService.encrypt,
      Fernet.decrypt, Fernet.encrypt]
    exact fun h => absurd h.symm hk
  · cases t <;>
      simp [EncryptionService.decrypt, Fernet.decrypt, FernetToken.tamper]

/-- C8, witness: round-trip of a concrete secret under key 0, failure
under key 1 and on a tampered token. -/
theorem encrypt_decrypt_roundtrip_witness :
    EncryptionService.decrypt ⟨0⟩ (EncryptionService.encrypt ⟨0⟩ "sk-test")
      = .ok "sk-test"
    ∧ EncryptionService.decrypt ⟨1⟩ (EncryptionService.encrypt ⟨0⟩ "sk-test")
      = .error .decryptionError
    ∧ EncryptionService.decrypt ⟨0⟩ (FernetToken.tamper (.valid 0 "sk-test"))
      = .error .decryptionError :=
  encrypt_decrypt_roundtrip ⟨0⟩ ⟨1⟩ "sk-test" (.valid 0 "sk-test") (by decide)

/-!
## Theorems: the check job (claims C1, C2, C10, C9)
-/

/-- C1: in a run of the check job where the credential and its platform
are found, decryption, the balance fetch and the commit all succeed
(and the queue accepts jobs): if a notification rule for the credential
exists and the freshly fetched balance is ≤ its threshold, exactly one
notify job is enqueued, carrying that balance together with the rule's
threshold, channel and address; if the balance exceeds the threshold,
or no rule exists, no notify job is enqueued. -/
theorem check_enqueues_notify_iff (svc : EncryptionService) (db : DbState)
    (key_id : Nat) (http : HttpOutcome) (now : Nat)
    (rec : ManagedApiKey) (plat : PlatformProvider)
    (adapter : AdapterKind) (r : BalanceFetchResult) (s : String)
    (hrec : db.keys.find? (fun k => k.id = key_id) = some rec)
    (hplat : db.platforms.find? (fun p => p.id = rec.platform_id) = some plat)
    (hdec : svc.decrypt rec.api_key_encrypted = .ok s)
    (hfac : AdapterFactory.create_adapter plat.adapter_identifier = .ok adapter)
    (hfetch : adapterFetchBalance adapter rec.metadata http = .ok r) :
    (∀ rule, db.rules.find? (fun ru => ru.key_id = key_id) = some rule →
      r.balance ≤ rule.threshold_amount →
      (check_single_key svc db key_id http now true true).notifyJobs
        = [{ key_id := key_id, balance := r.balance,
             threshold := rule.threshold_amount,
             channel := rule.notification_channel,
             address := rule.channel_address }])
    ∧ (∀ rule, db.rules.find? (fun ru => ru.key_id = key_id) = some rule →
      rule.threshold_amount < r.balance →
      (check_single_key svc db key_id http now true true).notifyJobs = [])
    ∧ (db.rules.find? (fun ru => ru.key_id = key_id) = none →
      (check_single_key svc db key_id http now true true).notifyJobs = []) := by
  refine ⟨?_, ?_, ?_⟩
  · intro rule hrule hle
    simp [check_single_key, Sess.openOn, Sess.add, Sess.commit, Sess.rollback,
      applyChange, hrec, hplat, hdec, hfac, hfetch, hrule, hle]
  · intro rule hrule hlt
    simp [check_single_key, Sess.openOn, Sess.add, Sess.commit, Sess.rollback,
      applyChange, hrec, hplat, hdec, hfac, hfetch, hrule, not_le.mpr hlt]
  · intro hrule
    simp [check_single_key, Sess.openOn, Sess.add, Sess.commit, Sess.rollback,
      applyChange, hrec, hplat, hdec, hfac, hfetch, hrule]

/-- A concrete credential row used to exercise the check-job theorems:
id 7, secret encrypted under key 0, metadata carrying a grant of 100,
on platform 3 (the estimate adapter). -/
def wRec : ManagedApiKey :=
  { id := 7, name := "k", api_key_encrypted := .valid 0 "sk-wit",
    metadata := [("total_grant", .num 100)],
    last_known_balance := none, last_checked := none,
    user_id := 1, platform_id := 3 }

/-- A concrete platform row: id 3, estimate adapter. -/
def wPlat : PlatformProvider := { id := 3, adapter_identifier := "openai" }

/-- A concrete notification rule for credential 7 with threshold 150. -/
def wRule : NotificationRule :=
  { key_id := 7, threshold_amount := 150,
    notification_channel := "email", channel_address := "a@b" }

/-- A concrete database holding exactly `wRec`, `wRule`, `wPlat`. -/
def wDb : DbState :=
  { keys := [wRec], logs := [], rules := [wRule], platforms := [wPlat] }

/-- C1, witness: on `wDb`, a check of credential 7 whose usage request
404s fetches balance 100 ≤ threshold 150 and enqueues exactly the one
notify job carrying balance 100. -/
theorem check_enqueues_notify_iff_witness :
    (check_single_key ⟨0⟩ wDb 7 (.response 404 none) 5 true true).notifyJobs
      = [{ key_id := 7, balance := 100, threshold := 150,
           channel := "email", address := "a@b" }] :=
  (check_enqueues_notify_iff ⟨0⟩ wDb 7 (.response 404 none) 5 wRec wPlat
    .openai { balance := 100, is_estimate := true } "sk-wit"
    rfl rfl rfl rfl rfl).1 wRule rfl (by norm_num [wRule])

/-- C2: in a run of the check job where the credential and its platform
are found, (i) all-or-nothing: the final committed database is either
the initial one with *both* the credential's balance/timestamp update
and *one* appended history record applied, or exactly the initial one;
and (ii) on any failure in steps 2–4 — decryption fails, the adapter
cannot be built or its fetch fails, or the commit fails — the committed
database is left exactly unchanged and the job re-raises an error. -/
theorem check_atomic_rollback (svc : EncryptionService) (db : DbState)
    (key_id : Nat) (http : HttpOutcome) (now : Nat)
    (commitOk enqueueOk : Bool) (rec : ManagedApiKey) (plat : PlatformProvider)
    (hrec : db.keys.find? (fun k => k.id = key_id) = some rec)
    (hplat : db.platforms.find? (fun p => p.id = rec.platform_id) = some plat) :
    ((∃ b : ℚ,
        (check_single_key svc db key_id http now commitOk enqueueOk).db
          = applyChange (applyChange db (.putKey { rec with
              last_known_balance := some b, last_checked := some now }))
              (.addLog { key_id := key_id, balance := b, timestamp := now }))
      ∨ (check_single_key svc db key_id http now commitOk enqueueOk).db = db)
    ∧ (((∃ e, svc.decrypt rec.api_key_encrypted = .error e)
        ∨ (∃ e, AdapterFactory.create_adapter plat.adapter_identifier
            = .error e)
        ∨ (∃ a e, AdapterFactory.create_adapter plat.adapter_identifier = .ok a
            ∧ adapterFetchBalance a rec.metadata http = .error e)
        ∨ commitOk = false) →
      (check_single_key svc db key_id http now commitOk enqueueOk).db = db
      ∧ ∃ e, (check_single_key svc db key_id http now commitOk enqueueOk).result
          = .error e) := by
  cases hdec : svc.decrypt rec.api_key_encrypted with
  | error e =>
    refine ⟨Or.inr ?_, fun _ => ⟨?_, e, ?_⟩⟩ <;>
      simp [check_single_key, Sess.openOn, Sess.rollback, hrec, hplat, hdec]
  | ok s =>
    cases hfac : AdapterFactory.create_adapter plat.adapter_identifier with
    | error e =>
      refine ⟨Or.inr ?_, fun _ => ⟨?_, e, ?_⟩⟩ <;>
        simp [check_single_key, Sess.openOn, Sess.rollback, hrec, hplat, hdec,
          hfac]
    | ok adapter =>
      cases hfetch : adapterFetchBalance adapter rec.metadata http with
      | error e =>
        refine ⟨Or.inr ?_, fun _ => ⟨?_, e, ?_⟩⟩ <;>
          simp [check_single_key, Sess.openOn, Sess.rollback, hrec, hplat,
            hdec, hfac, hfetch]
      | ok r =>
        cases commitOk with
        | false =>
          refine ⟨Or.inr ?_, fun _ => ⟨?_, .dbError, ?_⟩⟩ <;>
            simp [check_single_key, Sess.openOn, Sess.add, Sess.commit,
              Sess.rollback, hrec, hplat, hdec, hfac, hfetch]
        | true =>
          constructor
          · left
            refine ⟨r.balance, ?_⟩
            cases hrule : db.rules.find? (fun ru => ru.key_id = key_id) with
            | none =>
              simp [check_single_key, Sess.openOn, Sess.add, Sess.commit,
                Sess.rollback, applyChange, hrec, hplat, hdec, hfac, hfetch,
                hrule]
            | some rule =>
              by_cases hle : r.balance ≤ rule.threshold_amount
              · cases enqueueOk <;>
                  simp [check_single_key, Sess.openOn, Sess.add, Sess.commit,
                    Sess.rollback, applyChange, hrec, hplat, hdec, hfac,
                    hfetch, hrule, hle]
              · simp [check_single_key, Sess.openOn, Sess.add, Sess.commit,
                  Sess.rollback, applyChange, hrec, hplat, hdec, hfac, hfetch,
                  hrule, hle]
          · rintro (⟨e, he⟩ | ⟨e, he⟩ | ⟨a, e, ha, he⟩ | hco)
            · simp at he
            · simp at he
            · obtain rfl : adapter = a := by injection ha
              rw [hfetch] at he
              simp at he
            · simp at hco

/-- C2, witness: on `wDb` with a failing commit, the committed database
is exactly the initial one and the job re-raises. -/
theorem check_atomic_rollback_witness :
    ((∃ b : ℚ,
        (check_single_key ⟨0⟩ wDb 7 (.response 404 none) 5 false true).db
          = applyChange (applyChange wDb (.putKey { wRec with
              last_known_balance := some b, last_checked := some 5 }))
              (.addLog { key_id := 7, balance := b, timestamp := 5 }))
      ∨ (check_single_key ⟨0⟩ wDb 7 (.response 404 none) 5 false true).db
          = wDb)
    ∧ ((check_single_key ⟨0⟩ wDb 7 (.response 404 none) 5 false true).db = wDb
      ∧ ∃ e, (check_single_key ⟨0⟩ wDb 7 (.response 404 none) 5 false
          true).result = .error e) :=
  ⟨(check_atomic_rollback ⟨0⟩ wDb 7 (.response 404 none) 5 false true wRec
      wPlat rfl rfl).1,
   (check_atomic_rollback ⟨0⟩ wDb 7 (.response 404 none) 5 false true wRec
      wPlat rfl rfl).2 (Or.inr (Or.inr (Or.inr rfl)))⟩

/-- C10: if everything up to and including the commit succeeds, a rule
exists and the fetched balance is at or below its threshold, but the
enqueue of the notify job fails, then the committed balance, timestamp
and appended history record remain persisted (the rollback in the
`except` clause has nothing staged to undo), no notify job is recorded,
and the job re-raises the error. -/
theorem commit_survives_enqueue_failure (svc : EncryptionService)
    (db : DbState) (key_id : Nat) (http : HttpOutcome) (now : Nat)
    (rec : ManagedApiKey) (plat : PlatformProvider)
    (adapter : AdapterKind) (r : BalanceFetchResult) (s : String)
    (rule : NotificationRule)
    (hrec : db.keys.find? (fun k => k.id = key_id) = some rec)
    (hplat : db.platforms.find? (fun p => p.id = rec.platform_id) = some plat)
    (hdec : svc.decrypt rec.api_key_encrypted = .ok s)
    (hfac : AdapterFactory.create_adapter plat.adapter_identifier = .ok adapter)
    (hfetch : adapterFetchBalance adapter rec.metadata http = .ok r)
    (hrule : db.rules.find? (fun ru => ru.key_id = key_id) = some rule)
    (hle : r.balance ≤ rule.threshold_amount) :
    (check_single_key svc db key_id http now true false).db
      = applyChange (applyChange db (.putKey { rec with
          last_known_balance := some r.balance, last_checked := some now }))
          (.addLog { key_id := key_id, balance := r.balance, timestamp := now })
    ∧ (check_single_key svc db key_id http now true false).notifyJobs = []
    ∧ (check_single_key svc db key_id http now true false).result
      = .error .enqueueError := by
  refine ⟨?_, ?_, ?_⟩ <;>
    simp [check_single_key, Sess.openOn, Sess.add, Sess.commit, Sess.rollback,
      applyChange, hrec, hplat, hdec, hfac, hfetch, hrule, hle]

/-- C10, witness: on `wDb` with a successful commit and a failing
enqueue (balance 100 ≤ threshold 150), the updated credential row and
the one appended history record remain committed and the job errors. -/
theorem commit_survives_enqueue_failure_witness :
    (check_single_key ⟨0⟩ wDb 7 (.response 404 none) 5 true false).db
      = applyChange (applyChange wDb (.putKey { wRec with
          last_known_balance := some 100, last_checked := some 5 }))
          (.addLog { key_id := 7, balance := 100, timestamp := 5 })
    ∧ (check_single_key ⟨0⟩ wDb 7 (.response 404 none) 5 true false).notifyJobs
      = []
    ∧ (check_single_key ⟨0⟩ wDb 7 (.response 404 none) 5 true false).result
      = .error .enqueueError :=
  commit_survives_enqueue_failure ⟨0⟩ wDb 7 (.response 404 none) 5 wRec wPlat
    .openai { balance := 100, is_estimate := true } "sk-wit" wRule
    rfl rfl rfl rfl rfl rfl (by norm_num [wRule])

/-- The credential rows after one run of the check job are either
untouched, or the result of rewriting the found row's balance and
timestamp fields (the only fields the job writes). -/
theorem check_single_key_keys (svc : EncryptionService) (db : DbState)
    (key_id : Nat) (http : HttpOutcome) (now : Nat)
    (commitOk enqueueOk : Bool) :
    (check_single_key svc db key_id http now commitOk enqueueOk).db.keys
      = db.keys
    ∨ ∃ rec b, db.keys.find? (fun k => k.id = key_id) = some rec
      ∧ (check_single_key svc db key_id http now commitOk enqueueOk).db.keys
        = db.keys.map (fun k =>
            if k.id = rec.id
            then { rec with
              last_known_balance := some b, last_checked := some now }
            else k) := by
  cases hrec : db.keys.find? (fun k => k.id = key_id) with
  | none => exact Or.inl (by simp [check_single_key, Sess.openOn, hrec])
  | some rec =>
    cases hplat : db.platforms.find? (fun p => p.id = rec.platform_id) with
    | none => exact Or.inl (by simp [check_single_key, Sess.openOn, hrec, hplat])
    | some plat =>
      cases hdec : svc.decrypt rec.api_key_encrypted with
      | error e =>
        exact Or.inl (by
          simp [check_single_key, Sess.openOn, Sess.rollback, hrec, hplat,
            hdec])
      | ok s =>
        cases hfac : AdapterFactory.create_adapter plat.adapter_identifier with
        | error e =>
          exact Or.inl (by
            simp [check_single_key, Sess.openOn, Sess.rollback, hrec, hplat,
              hdec, hfac])
        | ok adapter =>
          cases hfetch : adapterFetchBalance adapter rec.metadata http with
          | error e =>
            exact Or.inl (by
              simp [check_single_key, Sess.openOn, Sess.rollback, hrec, hplat,
                hdec, hfac, hfetch])
          | ok r =>
            cases commitOk with
            | false =>
              exact Or.inl (by
                simp [check_single_key, Sess.openOn, Sess.add, Sess.commit,
                  Sess.rollback, hrec, hplat, hdec, hfac, hfetch])
            | true =>
              refine Or.inr ⟨rec, r.balance, rfl, ?_⟩
              cases hrule : db.rules.find? (fun ru => ru.key_id = key_id) with
              | none =>
                simp [check_single_key, Sess.openOn, Sess.add, Sess.commit,
                  Sess.rollback, applyChange, hrec, hplat, hdec, hfac, hfetch,
                  hrule]
              | some rule =>
                by_cases hle : r.balance ≤ rule.threshold_amount
                · cases enqueueOk <;>
                    simp [check_single_key, Sess.openOn, Sess.add, Sess.commit,
                      Sess.rollback, applyChange, hrec, hplat, hdec, hfac,
                      hfetch, hrule, hle]
                · simp [check_single_key, Sess.openOn, Sess.add, Sess.commit,
                    Sess.rollback, applyChange, hrec, hplat, hdec, hfac,
                    hfetch, hrule, hle]

/-- Rewriting one row's balance/timestamp fields preserves, row for
row, the identifier and the encrypted-secret field. -/
theorem keys_update_preserves_encrypted (keys : List ManagedApiKey)
    (rec : ManagedApiKey) (b : ℚ) (now : Nat) (hmem : rec ∈ keys) :
    ∀ r' ∈ keys.map (fun k =>
        if k.id = rec.id
        then { rec with last_known_balance := some b, last_checked := some now }
        else k),
      ∃ r ∈ keys, r'.id = r.id
        ∧ r'.api_key_encrypted = r.api_key_encrypted := by
  intro r' hr'
  obtain ⟨k, hk, rfl⟩ := List.mem_map.mp hr'
  by_cases h : k.id = rec.id
  · exact ⟨rec, hmem, by simp [h]⟩
  · exact ⟨k, hk, by simp [h]⟩

/-- C9: the plaintext secret is never persisted.  (i) Credential
registration (`create_key`) stores, as the only secret-bearing field,
the ciphertext produced by the Encryption Service from the submitted
plaintext — the row holds `encrypt(plaintext)`, recoverable only by
decrypting under the service key.  (ii) The check job decrypts only in
memory: whatever the oracles do, every credential row after the run
carries an encrypted-secret field unchanged from a row of the same id
before the run. -/
theorem plaintext_never_persisted (svc : EncryptionService)
    (db db2 : DbState) (key_data : ApiKeyCreate) (uid newId : Nat)
    (key_id now : Nat) (http : HttpOutcome) (commitOk enqueueOk : Bool)
    (plat : PlatformProvider)
    (hplat : db.platforms.find? (fun p => p.id = key_data.platform_id)
      = some plat) :
    (∃ new_key, create_key svc db key_data uid newId
        = ({ db with keys := db.keys ++ [new_key] }, .ok new_key)
      ∧ new_key.api_key_encrypted = svc.encrypt key_data.api_key
      ∧ svc.decrypt new_key.api_key_encrypted = .ok key_data.api_key)
    ∧ (∀ r' ∈ (check_single_key svc db2 key_id http now commitOk
          enqueueOk).db.keys,
        ∃ r ∈ db2.keys, r'.id = r.id
          ∧ r'.api_key_encrypted = r.api_key_encrypted) := by
  constructor
  · refine ⟨
      { id := newId, name := key_data.name,
        api_key_encrypted := svc.encrypt key_data.api_key,
        metadata := key_data.metadata.getD [],
        last_known_balance := none, last_checked := none,
        user_id := uid, platform_id := key_data.platform_id }, ?_, rfl, ?_⟩
    · simp [create_key, hplat]
    · simp [EncryptionService.encrypt, EncryptionService.decrypt,
        Fernet.encrypt, Fernet.decrypt]
  · intro r' hr'
    rcases check_single_key_keys svc db2 key_id http now commitOk enqueueOk
      with h | ⟨rec, b, hrec, h⟩
    · rw [h] at hr'
      exact ⟨r', hr', rfl, rfl⟩
    · rw [h] at hr'
      exact keys_update_preserves_encrypted db2.keys rec b now
        (List.mem_of_find?_eq_some hrec) r' hr'

/-- C9, witness: registering a credential on `wDb` stores exactly the
ciphertext of the submitted plaintext, and a check run on `wDb` leaves
every row's encrypted-secret field as it was. -/
theorem plaintext_never_persisted_witness :
    (∃ new_key, create_key ⟨0⟩ wDb ⟨"n", "sk-new", 3, none⟩ 1 9
        = ({ wDb with keys := wDb.keys ++ [new_key] }, .ok new_key)
      ∧ new_key.api_key_encrypted
        = EncryptionService.encrypt ⟨0⟩ "sk-new"
      ∧ EncryptionService.decrypt ⟨0⟩ new_key.api_key_encrypted
        = .ok "sk-new")
    ∧ (∀ r' ∈ (check_single_key ⟨0⟩ wDb 7 (.response 404 none) 5 true
          true).db.keys,
        ∃ r ∈ wDb.keys, r'.id = r.id
          ∧ r'.api_key_encrypted = r.api_key_encrypted) :=
  plaintext_never_persisted ⟨0⟩ wDb wDb ⟨"n", "sk-new", 3, none⟩ 1 9
    7 5 (.response 404 none) true true wPlat rfl

/-!
## Theorems: the scheduler fan-out (claim C3)
-/

/-- When every enqueue succeeds, the loop enqueues one check job per
credential, in enumeration order. -/
theorem enqueueLoop_all_ok (keys : List ManagedApiKey) (enqOk : Nat → Bool) :
    ∀ i, (∀ j, j < keys.length → enqOk (i + j) = true) →
      enqueueLoop keys enqOk i
        = { enqueued := keys.map (fun k => k.id), result := .ok () } := by
  induction keys with
  | nil => intro i _; rfl
  | cons key rest ih =>
    intro i h
    have h0 : enqOk i = true := by simpa using h 0 (by simp)
    have hrest := ih (i + 1) (fun j hj => by
      rw [show i + 1 + j = i + (j + 1) by omega]
      exact h (j + 1) (by simpa using Nat.succ_lt_succ hj))
    simp [enqueueLoop, h0, hrest]

/-- When the enqueue at position `j` fails and the ones before it
succeed, the loop stops there: exactly the first `j` credentials' jobs
are enqueued and the loop raises. -/
theorem enqueueLoop_fail_at (keys : List ManagedApiKey) (enqOk : Nat → Bool) :
    ∀ i j, j < keys.length → (∀ l, l < j → enqOk (i + l) = true) →
      enqOk (i + j) = false →
      enqueueLoop keys enqOk i
        = { enqueued := (keys.take j).map (fun k => k.id),
            result := .error .enqueueError } := by
  induction keys with
  | nil => intro i j hj _ _; simp at hj
  | cons key rest ih =>
    intro i j hj hok hfail
    cases j with
    | zero =>
      have h0 : enqOk i = false := by simpa using hfail
      simp [enqueueLoop, h0]
    | succ j =>
      have h0 : enqOk i = true := by simpa using hok 0 (Nat.succ_pos j)
      have hrest := ih (i + 1) j (by simpa using hj) (fun l hl => by
          rw [show i + 1 + l = i + (l + 1) by omega]
          exact hok (l + 1) (Nat.succ_lt_succ hl))
        (by rw [show i + 1 + j = i + (j + 1) by omega]; exact hfail)
      simp [enqueueLoop, h0, hrest]

/-- A second credential row, id 8, for the scheduler theorems. -/
def wRec2 : ManagedApiKey := { wRec with id := 8 }

/-- A database with exactly the two credentials 7 and 8. -/
def wDb2 : DbState :=
  { keys := [wRec, wRec2], logs := [], rules := [], platforms := [] }

/-- An enqueue oracle that fails exactly on the first credential. -/
def failAtZero : Nat → Bool := fun i => decide (i ≠ 0)

/-- An enqueue oracle that fails exactly on the second credential. -/
def failAtOne : Nat → Bool := fun i => decide (i ≠ 1)

/-- C3, counterexample.  The claim says one failed enqueue never
prevents enqueueing the rest.  But the fan-out loop has no per-item
error handling: with two credentials (7 and 8) and the enqueue of the
first failing, the loop aborts with zero jobs enqueued — in particular
credential 8's check job, which the claim requires, is never
enqueued. -/
theorem schedule_fanout_counterexample :
    (schedule_all_key_checks wDb2 failAtZero).enqueued = []
    ∧ (schedule_all_key_checks wDb2 failAtZero).result = .error .enqueueError
    ∧ 8 ∉ (schedule_all_key_checks wDb2 failAtZero).enqueued :=
  ⟨rfl, rfl, by decide⟩

/-- C3, amended: the fan-out enqueues check jobs sequentially in
enumeration order; when every enqueue succeeds, exactly N jobs are
enqueued for N credentials; when the enqueue at position `j` is the
first to fail, exactly the jobs of the first `j` credentials have been
enqueued and the remaining ones are not — so only a failure on the
*last* credential leaves the other N−1 enqueued. -/
theorem schedule_sequential_fanout (db : DbState) (enqOk : Nat → Bool) :
    ((∀ i, i < db.keys.length → enqOk i = true) →
      schedule_all_key_checks db enqOk
        = { enqueued := db.keys.map (fun k => k.id), result := .ok () })
    ∧ (∀ j, j < db.keys.length → (∀ l, l < j → enqOk l = true) →
      enqOk j = false →
      schedule_all_key_checks db enqOk
        = { enqueued := (db.keys.take j).map (fun k => k.id),
            result := .error .enqueueError }) := by
  constructor
  · intro h
    exact enqueueLoop_all_ok db.keys enqOk 0 (fun j hj => by
      simpa using h j hj)
  · intro j hj hok hfail
    exact enqueueLoop_fail_at db.keys enqOk 0 j hj
      (fun l hl => by simpa using hok l hl) (by simpa using hfail)

/-- C3, witness for the amended theorem: with credentials 7 and 8 and
the enqueue of the second (last) one failing, exactly credential 7's
job was enqueued. -/
theorem schedule_sequential_fanout_witness :
    schedule_all_key_checks wDb2 failAtOne
      = { enqueued := [7], result := .error .enqueueError } := by
  have h := (schedule_sequential_fanout wDb2 failAtOne).2 1 (by decide)
    (fun l hl => by
      obtain rfl : l = 0 := Nat.lt_one_iff.mp hl
      rfl)
    rfl
  simpa [wDb2, wRec, wRec2] using h

end QuotaWatch
